import Mathlib

/-!
# Verification of the Auth facade (src/lib/modules/auth/index.js)

A shallow embedding of the react-native-firebase Auth facade: the cached
auth state, the bridge-event handler `_onAuthStateChanged`, the listener
registration API `onAuthStateChanged` / `_offAuthStateChanged`, and the
catalog of forwarding operations adapted through `promisify`.

JavaScript runtime values are embedded explicitly: possibly-absent object
fields become `Option`, truthiness tests on objects become `Option.isSome`,
and the null-dereference in the handler's final `emit` line becomes an
`Except` error. Collaborator classes of the repository that are not part of
the analysed source (the `User` value object, the `Base` event emitter, the
`promisify` adapter) are modelled from the specification and marked as such
in their doc comments.
-/

namespace RNFAuth

/-- Provider-supplied fields of the `auth.user` payload object. -/
structure UserRecord where
  uid : String
  email : String
deriving Repr, DecidableEq

/-- `AuthResultType` from the source:
`{ authenticated: boolean, user: Object|null }`. The `authenticated` field
is `Option Bool` because at runtime the flag may also be absent; the handler
guards against that with `auth.authenticated || false`. -/
structure AuthResult where
  authenticated : Option Bool
  user : Option UserRecord
deriving Repr, DecidableEq

/-- Modelled from the spec: the `User` value object (`./user`, not part of the
analysed source) is a mutable view of the current principal with stable
identity; its field values are refreshed in place from each new AuthState
(spec §3, §4.2). `hid` is the allocation identity of the handle object;
`values` are the fields last written into it. -/
structure UserHandle where
  hid : Nat
  values : AuthResult
deriving Repr, DecidableEq

/-- Modelled from the spec: `User#_updateValues(auth)` refreshes the handle's
fields in place, preserving the handle's identity (spec §3, §4.2). -/
def UserHandle.updateValues (h : UserHandle) (auth : AuthResult) : UserHandle :=
  { h with values := auth }

/-- Registered callbacks are distinguished by an identity. -/
abbrev ListenerId := Nat

/-- A delivered notification: which listener was called, with which payload
(the event's `user` object, or null). -/
abbrev Notification := ListenerId × Option UserRecord

/-- The facade's state: fields `_user`, `_authResult` and `authenticated`
from the source class, plus the subscriber list for the
`onAuthStateChanged` event (modelled from the spec: the inherited `Base`
emitter keeps an ordered list of callbacks per event name — appended by
`on`, each called in order by `emit`, removed by `removeListener`; spec
§4.1, §9), plus a fresh-identity counter used to allocate handle objects. -/
structure AuthState where
  user : Option UserHandle
  authResult : Option AuthResult
  authenticated : Bool
  listeners : List ListenerId
  nextHid : Nat
deriving Repr, DecidableEq

/-- The constructor (lines 20-34): `_user = null`, `_authResult = null`,
`authenticated = false`, no subscribers yet. -/
def Auth.init : AuthState :=
  { user := none, authResult := none, authenticated := false
    listeners := [], nextHid := 0 }

/-- `auth && auth.user` — the event payload is non-null and carries a truthy
`user` object. -/
def eventHasUser : Option AuthResult → Bool
  | some a => a.user.isSome
  | none => false

/-- `auth ? auth.authenticated || false : false` (line 43). -/
def coerceAuthenticated : Option AuthResult → Bool
  | some a => a.authenticated.getD false
  | none => false

/-- Modelled from the spec: `Base#emit` calls every registered callback with
the given payload, synchronously, in registration order (spec §4.1, §9). -/
def emitEvent (ls : List ListenerId) (payload : Option UserRecord) :
    List Notification :=
  ls.map fun l => (l, payload)

/-- A thrown JavaScript error: reading `.user` off a null `_authResult`. -/
inductive JsError where
  | nullDeref
deriving Repr, DecidableEq

/-- The three-branch `_user` update of lines 44-46, evaluated against the
pre-event handle and the fresh-identity counter:
`if (auth && auth.user && !this._user) this._user = new User(this, auth);`
`else if ((!auth || !auth.user) && this._user) this._user = null;`
`else if (this._user) this._user._updateValues(auth);`
The four cases below are exactly the runtime cases of that chain: a non-null
event with a truthy `user` and no cached handle hits the first branch
(`new User`); a null event or one without a user payload hits the second
branch when a handle is cached (and otherwise falls through all three,
leaving `_user` null as it was); a non-null event with a user payload and a
cached handle hits the third branch (`_updateValues`). -/
def updateUserHandle (u : Option UserHandle) (nextHid : Nat)
    (auth : Option AuthResult) : Option UserHandle × Nat :=
  match u, auth with
  | none, none => (none, nextHid)
  | none, some a =>
    if a.user.isSome then (some ⟨nextHid, a⟩, nextHid + 1)
    else (none, nextHid)
  | some _, none => (none, nextHid)
  | some h, some a =>
    if a.user.isSome then (some (h.updateValues a), nextHid)
    else (none, nextHid)

/-- `_onAuthStateChanged(auth)` (lines 41-48): stores the event in
`_authResult`, recomputes `authenticated`, runs the three-branch handle
update, then emits `this._authResult.user || null` to every subscriber.
Reading `.user` throws when `_authResult` is null, so the handler returns
the mutated state together with either the delivered notifications or the
thrown error. -/
def onAuthStateChangedHandler (s : AuthState) (auth : Option AuthResult) :
    AuthState × Except JsError (List Notification) :=
  let hu := updateUserHandle s.user s.nextHid auth
  let s2 : AuthState :=
    { s with authResult := auth, authenticated := coerceAuthenticated auth
             user := hu.1, nextHid := hu.2 }
  match s2.authResult with
  | none => (s2, Except.error JsError.nullDeref)
  | some a => (s2, Except.ok (emitEvent s2.listeners a.user))

/-- Processing a sequence of bridge events in order; collects the
notification batch of each event (empty for an event on which the handler
threw, since the `emit` line was never reached). -/
def processEvents : AuthState → List (Option AuthResult) →
    AuthState × List (List Notification)
  | s, [] => (s, [])
  | s, e :: rest =>
    let r := onAuthStateChangedHandler s e
    let t := processEvents r.1 rest
    (t.1, (match r.2 with | Except.ok ns => ns | Except.error _ => []) :: t.2)

/-- `get currentUser()` (lines 226-228): returns `this._user`. -/
def currentUser (s : AuthState) : Option UserHandle := s.user

/-- The result of a call to `onAuthStateChanged(listener)`: the facade state
after registration, the synchronous calls made to the listener during
registration itself, and the unsubscribe capability the call returned
(tracked as the listener it was bound to). -/
structure SubscribeResult where
  state : AuthState
  immediate : List Notification
  unsub : ListenerId
deriving Repr, DecidableEq

/-- `onAuthStateChanged(listener)` (lines 58-63):
`this.on('onAuthStateChanged', listener)` appends the callback to the
subscriber list; then `if (this._authResult) listener(this._authResult.user || null)`
calls the listener once, immediately; finally the method returns
`this._offAuthStateChanged.bind(this, listener)`. -/
def subscribe (s : AuthState) (listener : ListenerId) : SubscribeResult :=
  let s1 := { s with listeners := s.listeners ++ [listener] }
  let immediate :=
    match s1.authResult with
    | some a => [(listener, a.user)]
    | none => []
  ⟨s1, immediate, listener⟩

/-- `_offAuthStateChanged(listener)` (lines 69-72): `removeListener` drops the
callback from the subscriber list (modelled from the spec: the emitter keeps
an ordered set of callback handles per event name; spec §9). -/
def unsubscribe (s : AuthState) (listener : ListenerId) : AuthState :=
  { s with listeners := s.listeners.filter fun l => l ≠ listener }

/-! ## Forwarding operations

Each WEB API method body is `return promisify(name, FirebaseAuth, errNs)(args)`:
one adapted call into the native bridge. The descriptor below records exactly
what the source passes: the native method name, the optional error-namespace
argument given to `promisify`, and the forwarded arguments. -/

/-- An argument forwarded to a native bridge method. -/
inductive BridgeArg where
  | str (s : String)
  | obj (fields : List (String × String))
deriving Repr, DecidableEq

/-- One adapted call into the native bridge. -/
structure BridgeCall where
  method : String
  errNs : Option String
  args : List BridgeArg
deriving Repr, DecidableEq

/-- `Credential` value: `{ provider: string, token: string, secret: string }`. -/
structure Credential where
  provider : String
  token : String
  secret : String
deriving Repr, DecidableEq

/-- `createUserWithEmailAndPassword` (lines 80-83). -/
def createUserWithEmailAndPassword (email password : String) : BridgeCall :=
  ⟨"createUserWithEmail", some "auth/", [.str email, .str password]⟩

/-- `signInWithEmailAndPassword` (lines 91-94). -/
def signInWithEmailAndPassword (email password : String) : BridgeCall :=
  ⟨"signInWithEmail", some "auth/", [.str email, .str password]⟩

/-- `updateEmail` (lines 103-105). -/
def updateEmail (email : String) : BridgeCall :=
  ⟨"updateUserEmail", some "auth/", [.str email]⟩

/-- `sendEmailVerification` (lines 110-112). -/
def sendEmailVerification : BridgeCall :=
  ⟨"sendEmailVerification", some "auth/", []⟩

/-- `updatePassword` (lines 119-121). -/
def updatePassword (password : String) : BridgeCall :=
  ⟨"updateUserPassword", some "auth/", [.str password]⟩

/-- `updateProfile` (lines 128-130). -/
def updateProfile (updates : List (String × String)) : BridgeCall :=
  ⟨"updateUserProfile", some "auth/", [.obj updates]⟩

/-- `link` (lines 136-138). -/
def link (c : Credential) : BridgeCall :=
  ⟨"link", some "auth/", [.str c.provider, .str c.token, .str c.secret]⟩

/-- `signInWithCustomToken` (lines 145-147): note the source passes no
error-namespace argument to `promisify` here. -/
def signInWithCustomToken (customToken : String) : BridgeCall :=
  ⟨"signInWithCustomToken", none, [.str customToken]⟩

/-- `signInWithCredential` (lines 153-155). -/
def signInWithCredential (c : Credential) : BridgeCall :=
  ⟨"signInWithProvider", some "auth/", [.str c.provider, .str c.token, .str c.secret]⟩

/-- `reauthenticateUser` (lines 161-163). -/
def reauthenticateUser (c : Credential) : BridgeCall :=
  ⟨"reauthenticateWithCredentialForProvider", some "auth/",
   [.str c.provider, .str c.token, .str c.secret]⟩

/-- `signInAnonymously` (lines 169-171). -/
def signInAnonymously : BridgeCall :=
  ⟨"signInAnonymously", some "auth/", []⟩

/-- `sendPasswordResetEmail` (lines 177-179). -/
def sendPasswordResetEmail (email : String) : BridgeCall :=
  ⟨"sendPasswordResetWithEmail", some "auth/", [.str email]⟩

/-- `deleteUser` (lines 185-187). -/
def deleteUser : BridgeCall :=
  ⟨"deleteUser", some "auth/", []⟩

/-- `reloadUser` (lines 193-195). -/
def reloadUser : BridgeCall :=
  ⟨"reloadUser", some "auth/", []⟩

/-- `getToken` (lines 201-203). -/
def getToken : BridgeCall :=
  ⟨"getToken", some "auth/", []⟩

/-- `signOut` (lines 210-212). -/
def signOut : BridgeCall :=
  ⟨"signOut", some "auth/", []⟩

/-- `getCurrentUser` (lines 218-220). -/
def getCurrentUser : BridgeCall :=
  ⟨"getCurrentUser", some "auth/", []⟩

/-- The full catalog of adapted bridge calls the WEB API can make, each at
representative arguments (every method of lines 80-220, in source order). -/
def callCatalog : List BridgeCall :=
  [ createUserWithEmailAndPassword "e" "p"
  , signInWithEmailAndPassword "e" "p"
  , updateEmail "e"
  , sendEmailVerification
  , updatePassword "p"
  , updateProfile [("displayName", "n")]
  , link ⟨"prov", "tok", "sec"⟩
  , signInWithCustomToken "tok"
  , signInWithCredential ⟨"prov", "tok", "sec"⟩
  , reauthenticateUser ⟨"prov", "tok", "sec"⟩
  , signInAnonymously
  , sendPasswordResetEmail "e"
  , deleteUser
  , reloadUser
  , getToken
  , signOut
  , getCurrentUser ]

/-- Outcome of a bridge operation: resolves with a result object, or rejects
with an error code. -/
abbrev BridgeOutcome := Except String (List (String × String))

/-- Modelled from the spec: `promisify` (`./../../utils`, not part of the
analysed source) adapts a named native method into a promise-returning
function that performs exactly one call into the bridge and resolves or
rejects exactly as the bridge does, with no retry, recovery or translation
(spec §4.1, §7). The bridge itself is an oracle from adapted calls to
outcomes. -/
def promisify (bridge : BridgeCall → BridgeOutcome) (c : BridgeCall) :
    BridgeOutcome :=
  bridge c

/-- A forwarding method run against the facade state: the method bodies of
lines 80-220 read none of `_user`, `_authResult`, `authenticated` and
mutate nothing; each returns the adapted bridge call and leaves the
state exactly as it was. -/
def runForwardingOp (s : AuthState) (bridge : BridgeCall → BridgeOutcome)
    (c : BridgeCall) : AuthState × BridgeOutcome :=
  (s, promisify bridge c)

/-! ## Sample values for concrete runs -/

/-- A sample user payload. -/
def sampleUser : UserRecord := ⟨"u1", "a@example.com"⟩

/-- A second sample payload for the same principal with a changed field. -/
def sampleUser2 : UserRecord := ⟨"u1", "b@example.com"⟩

/-- A sample authenticated event payload. -/
def sampleAuth : AuthResult := ⟨some true, some sampleUser⟩

/-- A follow-up event payload for the same principal. -/
def sampleAuth2 : AuthResult := ⟨some true, some sampleUser2⟩

/-- The facade state after one authenticated bridge event from construction. -/
def sampleState : AuthState := (processEvents Auth.init [some sampleAuth]).1

/-! ## Helper lemmas about the event handler -/

/-- The handler leaves the subscriber list untouched. -/
theorem handler_listeners (s : AuthState) (e : Option AuthResult) :
    ((onAuthStateChangedHandler s e).1).listeners = s.listeners := by
  cases e <;> rfl

/-- The handler stores the incoming event in `_authResult`. -/
theorem handler_authResult (s : AuthState) (e : Option AuthResult) :
    ((onAuthStateChangedHandler s e).1).authResult = e := by
  cases e <;> rfl

/-- The handler recomputes `authenticated` from the incoming event alone. -/
theorem handler_authenticated (s : AuthState) (e : Option AuthResult) :
    ((onAuthStateChangedHandler s e).1).authenticated = coerceAuthenticated e := by
  cases e <;> rfl

/-- On a non-null event the handler emits to every subscriber. -/
theorem handler_notifs_ok (s : AuthState) (a : AuthResult) :
    (onAuthStateChangedHandler s (some a)).2
      = Except.ok (emitEvent s.listeners a.user) := rfl

/-- After any processed event, a user handle is cached exactly when the event
carried a user payload. -/
theorem handler_user_isSome (s : AuthState) (e : Option AuthResult) :
    ((onAuthStateChangedHandler s e).1).user.isSome = eventHasUser e := by
  rcases e with _ | a
  · rcases hu : s.user with _ | h <;>
      simp [onAuthStateChangedHandler, updateUserHandle, eventHasUser, hu]
  · rcases ha : a.user with _ | r <;>
      rcases hu : s.user with _ | h <;>
        simp [onAuthStateChangedHandler, updateUserHandle, eventHasUser, ha, hu]

/-- Processing a trace that ends in one more event is processing the trace and
then handling that event. -/
theorem processEvents_fst_append (s : AuthState)
    (evs : List (Option AuthResult)) (e : Option AuthResult) :
    (processEvents s (evs ++ [e])).1
      = (onAuthStateChangedHandler (processEvents s evs).1 e).1 := by
  induction evs generalizing s with
  | nil => simp [processEvents]
  | cons e0 rest ih => simp [processEvents, ih]

/-! ## C1 -/

/-- The property C1 claims of the most recent event: `authenticated: true`
together with a non-absent user payload. -/
def lastEventAuthedWithUser (evs : List (Option AuthResult)) : Bool :=
  match evs.getLast? with
  | some (some a) => a.authenticated.getD false && a.user.isSome
  | _ => false

/-- What actually governs the cached handle: the most recent event was
non-null and carried a user payload, its `authenticated` flag playing no
role. -/
def lastEventHasUser (evs : List (Option AuthResult)) : Bool :=
  match evs.getLast? with
  | some e => eventHasUser e
  | none => false

/-- C1, as stated, is false: after the single bridge event
`{authenticated: false, user: {id: "u1", ...}}` the cached User handle is
non-absent although the event did not have `authenticated: true`. -/
theorem c1_counterexample :
    ¬ (∀ evs : List (Option AuthResult),
        (currentUser (processEvents Auth.init evs).1).isSome
          = lastEventAuthedWithUser evs) := by
  intro h
  have h1 := h [some ⟨some false, some ⟨"u1", "a@example.com"⟩⟩]
  revert h1
  decide

/-- C1 (amended): for every sequence of bridge-emitted AuthState events, the
cached User handle (returned by the `currentUser` accessor) is non-absent iff
the most recent event was non-null and had a non-absent user payload — the
`authenticated` flag of the event plays no role. -/
theorem c1_user_handle_iff_last_event_user (evs : List (Option AuthResult)) :
    (currentUser (processEvents Auth.init evs).1).isSome
      = lastEventHasUser evs := by
  rcases List.eq_nil_or_concat evs with h | ⟨L, b, h⟩
  · subst h; rfl
  · subst h
    simp [currentUser, lastEventHasUser, List.getLast?_concat,
      processEvents_fst_append, handler_user_isSome]

/-! ## C2 -/

/-- C2: across any processed bridge event at most one cached User handle
exists (the `_user` field is a single optional slot); a handle is created
exactly on a transition from no cached user to an event with a user payload;
it is set to absent on the reverse transition; and while a user payload
persists across consecutive events the existing handle object is mutated in
place via `_updateValues` — the resulting handle keeps the identity of the
old one and is never a freshly allocated object. -/
theorem c2_handle_lifecycle (s : AuthState) (e : Option AuthResult) :
    (s.user = none → eventHasUser e = false →
        (onAuthStateChangedHandler s e).1.user = none) ∧
    (∀ a : AuthResult, s.user = none → e = some a → a.user.isSome = true →
        (onAuthStateChangedHandler s e).1.user = some ⟨s.nextHid, a⟩) ∧
    (∀ h : UserHandle, s.user = some h → eventHasUser e = false →
        (onAuthStateChangedHandler s e).1.user = none) ∧
    (∀ h : UserHandle, ∀ a : AuthResult, s.user = some h → e = some a →
        a.user.isSome = true →
        (onAuthStateChangedHandler s e).1.user = some (h.updateValues a) ∧
        (h.updateValues a).hid = h.hid) := by
  refine ⟨?_, ?_, ?_, ?_⟩
  · intro hu he
    rcases e with _ | a <;>
      simp_all [onAuthStateChangedHandler, updateUserHandle, eventHasUser]
  · intro a hu he ha
    subst he
    simp_all [onAuthStateChangedHandler, updateUserHandle]
  · intro h hu he
    rcases e with _ | a <;>
      simp_all [onAuthStateChangedHandler, updateUserHandle, eventHasUser]
  · intro h a hu he ha
    subst he
    refine ⟨?_, rfl⟩
    simp_all [onAuthStateChangedHandler, updateUserHandle]

/-- Concrete run of the lifecycle theorem: after an authenticated event
creates handle `⟨0, sampleAuth⟩`, a second event for the same principal
leaves a handle with identity `0`, mutated in place via `updateValues`. -/
theorem c2_handle_lifecycle_witness :
    (onAuthStateChangedHandler sampleState (some sampleAuth2)).1.user
        = some (UserHandle.updateValues ⟨0, sampleAuth⟩ sampleAuth2) ∧
    (UserHandle.updateValues ⟨0, sampleAuth⟩ sampleAuth2).hid = 0 := by
  exact (c2_handle_lifecycle sampleState (some sampleAuth2)).2.2.2
    ⟨0, sampleAuth⟩ sampleAuth2 rfl rfl rfl

/-! ## C3 -/

/-- C3: `onAuthStateChanged(listener)` appends the listener to the
subscriber list (so every later bridge event notifies it); if an AuthState
is already cached the listener is additionally invoked exactly once,
immediately and synchronously, with the cached user or null; if no state is
cached it is not invoked during registration; and the call returns an
unsubscribe capability bound to that listener. -/
theorem c3_subscribe_spec (s : AuthState) (l : ListenerId) :
    ((subscribe s l).state.listeners = s.listeners ++ [l]) ∧
    (∀ a : AuthResult, ∀ ns : List Notification,
        (onAuthStateChangedHandler (subscribe s l).state (some a)).2
          = Except.ok ns → (l, a.user) ∈ ns) ∧
    (∀ a : AuthResult, s.authResult = some a →
        (subscribe s l).immediate = [(l, a.user)]) ∧
    (s.authResult = none → (subscribe s l).immediate = []) ∧
    ((subscribe s l).unsub = l) := by
  refine ⟨rfl, ?_, ?_, ?_, rfl⟩
  · intro a ns hns
    rw [handler_notifs_ok] at hns
    cases hns
    simp [subscribe, emitEvent]
  · intro a ha
    simp [subscribe, ha]
  · intro ha
    simp [subscribe, ha]

/-- Concrete run of the registration theorem: subscribing listener `7` when
`sampleAuth` is cached calls it exactly once with the cached user, and the
returned capability is bound to `7`. -/
theorem c3_subscribe_spec_witness :
    (subscribe sampleState 7).immediate = [(7, some sampleUser)] ∧
    (7, some sampleUser) ∈ emitEvent (subscribe sampleState 7).state.listeners
        (some sampleUser) ∧
    (subscribe sampleState 7).unsub = 7 := by
  refine ⟨(c3_subscribe_spec sampleState 7).2.2.1 sampleAuth rfl, ?_,
    (c3_subscribe_spec sampleState 7).2.2.2.2⟩
  exact (c3_subscribe_spec sampleState 7).2.1 sampleAuth _ (handler_notifs_ok _ _)

/-! ## C4 -/

/-- Once a listener is absent from the subscriber list, no processed trace of
bridge events ever notifies it. -/
theorem absent_listener_never_notified (s : AuthState) (l : ListenerId)
    (hl : l ∉ s.listeners) (evs : List (Option AuthResult)) :
    ∀ batch ∈ (processEvents s evs).2, ∀ n ∈ batch, n.1 ≠ l := by
  induction evs generalizing s with
  | nil => simp [processEvents]
  | cons e rest ih =>
    intro batch hb n hn
    simp only [processEvents, List.mem_cons] at hb
    rcases hb with hb | hb
    · subst hb
      rcases e with _ | a
      · simp [onAuthStateChangedHandler] at hn
      · simp only [handler_notifs_ok, emitEvent, List.mem_map] at hn
        rcases hn with ⟨l0, hl0, hn0⟩
        intro hc
        rw [← hn0] at hc
        simp at hc
        subst hc
        exact hl hl0
    · exact ih _ (by rw [handler_listeners]; exact hl) batch hb n hn

/-- C4: a listener registered via `onAuthStateChanged` and then removed by
invoking the returned unsubscribe capability is never invoked by any
subsequent bridge event, however many events follow. -/
theorem c4_unsubscribed_never_notified (s : AuthState) (l : ListenerId)
    (evs : List (Option AuthResult)) :
    ∀ batch ∈ (processEvents
        (unsubscribe (subscribe s l).state (subscribe s l).unsub) evs).2,
      ∀ n ∈ batch, n.1 ≠ l := by
  apply absent_listener_never_notified
  simp [unsubscribe, subscribe]

/-- Concrete run of the unsubscription theorem: listener `3` subscribes after
listener `1` and unsubscribes again; the one notification delivered for the
next event goes to listener `1`, not `3`. -/
theorem c4_unsubscribed_never_notified_witness :
    ((1 : ListenerId), (some sampleUser : Option UserRecord)).1 ≠ 3 := by
  exact c4_unsubscribed_never_notified (subscribe Auth.init 1).state 3
    [some sampleAuth] [(1, some sampleUser)] (by decide) _ (by decide)

/-! ## C5 -/

/-- C5: every processed (non-null) bridge event triggers exactly one
notification to each currently registered listener, delivered synchronously
in registration (FIFO) order, every listener receiving the identical
payload, namely the event's user object or null. -/
theorem c5_notify_exactly_once_fifo (s : AuthState) (a : AuthResult) :
    (onAuthStateChangedHandler s (some a)).2
        = Except.ok (s.listeners.map fun l => (l, a.user)) ∧
    (processEvents s [some a]).2 = [s.listeners.map fun l => (l, a.user)] := by
  exact ⟨rfl, rfl⟩

/-! ## C6 -/

/-- C6: the promise returned by a facade operation resolves or rejects
exactly as the bridge does — no retry, recovery or translation; in
particular, whenever the bridge rejects `signInWithEmailAndPassword` with
some error code, the returned promise rejects with that same code,
unchanged. -/
theorem c6_rejection_propagates (bridge : BridgeCall → BridgeOutcome) :
    (∀ c : BridgeCall, promisify bridge c = bridge c) ∧
    (∀ email password err,
        bridge (signInWithEmailAndPassword email password) = Except.error err →
        promisify bridge (signInWithEmailAndPassword email password)
          = Except.error err) := by
  exact ⟨fun _ => rfl, fun _ _ _ h => h⟩

/-- A bridge that rejects every email sign-in with `auth/wrong-password`. -/
def wrongPasswordBridge : BridgeCall → BridgeOutcome := fun c =>
  if c.method = "signInWithEmail" then Except.error "auth/wrong-password"
  else Except.ok []

/-- Concrete run of the propagation theorem: with a bridge that rejects the
email sign-in with `auth/wrong-password`, the facade promise for
`signInWithEmailAndPassword("a@example.com", "bad")` rejects with exactly
that code. -/
theorem c6_rejection_propagates_witness :
    promisify wrongPasswordBridge
        (signInWithEmailAndPassword "a@example.com" "bad")
      = Except.error "auth/wrong-password" := by
  exact (c6_rejection_propagates wrongPasswordBridge).2 "a@example.com" "bad"
    "auth/wrong-password" rfl

/-! ## C7 -/

/-- C7, as stated, is false: not every operation in the catalog passes the
`'auth/'` error-namespace argument — `signInWithCustomToken` (lines 145-147)
passes no namespace at all. -/
theorem c7_counterexample :
    ¬ (∀ c ∈ callCatalog, c.errNs = some "auth/") := by
  decide

/-- C7 (amended): every exposed forwarding operation performs one adapted
call into the bridge with the `'auth/'` error-namespace argument, except
`signInWithCustomToken`, which passes no error-namespace argument to the
adapter. -/
theorem c7_namespace_uniform_except_custom_token (email password tok : String)
    (cred : Credential) (updates : List (String × String)) :
    ((createUserWithEmailAndPassword email password).errNs = some "auth/") ∧
    ((signInWithEmailAndPassword email password).errNs = some "auth/") ∧
    ((updateEmail email).errNs = some "auth/") ∧
    (sendEmailVerification.errNs = some "auth/") ∧
    ((updatePassword password).errNs = some "auth/") ∧
    ((updateProfile updates).errNs = some "auth/") ∧
    ((link cred).errNs = some "auth/") ∧
    ((signInWithCredential cred).errNs = some "auth/") ∧
    ((reauthenticateUser cred).errNs = some "auth/") ∧
    (signInAnonymously.errNs = some "auth/") ∧
    ((sendPasswordResetEmail email).errNs = some "auth/") ∧
    (deleteUser.errNs = some "auth/") ∧
    (reloadUser.errNs = some "auth/") ∧
    (getToken.errNs = some "auth/") ∧
    (signOut.errNs = some "auth/") ∧
    (getCurrentUser.errNs = some "auth/") ∧
    ((signInWithCustomToken tok).errNs = none) := by
  exact ⟨rfl, rfl, rfl, rfl, rfl, rfl, rfl, rfl, rfl, rfl, rfl, rfl, rfl,
    rfl, rfl, rfl, rfl⟩

/-! ## C8 -/

/-- C8: no forwarding operation mutates the facade's cached state — the
fields `_user`, `_authResult` and `authenticated` are unchanged by the call
itself — and no operation performs a local precondition check for an
authenticated user: the adapted bridge call is made, and is the same call,
whatever the cached state, including when no user is cached. -/
theorem c8_forwarding_preserves_state (s : AuthState)
    (bridge : BridgeCall → BridgeOutcome) (c : BridgeCall) :
    ((runForwardingOp s bridge c).1 = s) ∧
    ((runForwardingOp s bridge c).1.user = s.user) ∧
    ((runForwardingOp s bridge c).1.authResult = s.authResult) ∧
    ((runForwardingOp s bridge c).1.authenticated = s.authenticated) ∧
    ((runForwardingOp { s with user := none } bridge c).2 = bridge c) ∧
    (∀ s' : AuthState,
        (runForwardingOp s bridge c).2 = (runForwardingOp s' bridge c).2) := by
  exact ⟨rfl, rfl, rfl, rfl, rfl, fun _ => rfl⟩

/-! ## C9 -/

/-- C9: the handler is not total on a null event — with a null or undefined
payload the `_user`/`authenticated` branches are guarded, but the final emit
line reads `this._authResult.user` off the just-stored null, so the handler
throws and no listener is notified for that event. -/
theorem c9_null_event_throws_before_emit (s : AuthState) :
    ((onAuthStateChangedHandler s none).2
        = Except.error JsError.nullDeref) ∧
    ((onAuthStateChangedHandler s none).1.authenticated = false) ∧
    ((onAuthStateChangedHandler s none).1.user = none) ∧
    ((processEvents s [none]).2 = [[]]) := by
  refine ⟨rfl, rfl, ?_, rfl⟩
  rcases hu : s.user with _ | h <;>
    simp [onAuthStateChangedHandler, updateUserHandle, hu]

/-! ## C10 -/

/-- C10: at construction `authenticated` is `false`, and after every
successfully processed bridge event it equals the boolean coercion of that
event's `authenticated` flag (`false` when the flag is absent),
independently of the cached user handle. -/
theorem c10_authenticated_tracks_flag :
    (Auth.init.authenticated = false) ∧
    (∀ evs : List (Option AuthResult), ∀ a : AuthResult,
        (processEvents Auth.init (evs ++ [some a])).1.authenticated
          = a.authenticated.getD false) := by
  refine ⟨rfl, ?_⟩
  intro evs a
  rw [processEvents_fst_append, handler_authenticated]
  rfl

end RNFAuth
